import Mathlib

/-!
Shallow embedding of `src/pages/api/public/generations.ts` (the public
"generations" ingestion endpoint): the zod schemas, the JS truthiness /
nullish-coalescing semantics the handler relies on, the data objects passed
to `prisma.observation.create` / `prisma.observation.update`, and the
HTTP-level control flow of the exported `handler`.

Modelling conventions:
* Request bodies are JSON values; a JSON value is never `undefined`, so a
  field is `undefined` exactly when its key is absent from the object.
* `Nullish α` mirrors the TypeScript type `α | null | undefined` produced by
  `z.___.nullish()` fields.
* JS numbers are modelled as integers (`Int`); the claims under study do not
  involve fractional values, `NaN` or `-0`.
* External collaborators (credential verification, `checkApiAccessScope`,
  the Prisma store, the zod ISO-8601 datetime validator) are oracles carried
  in an `Env` record, exactly at the interface the handler uses them.
* Calls the handler makes to collaborators are logged as `Effect`s in call
  order, so temporal claims ("before any store call") are statable.
-/

namespace Generations

/-- JSON values (the shape of `req.body` after body parsing). -/
inductive Json where
  | null
  | bool (b : Bool)
  | num (n : Int)
  | str (s : String)
  | arr (elems : List Json)
  | obj (fields : List (String × Json))

/-- The TypeScript type `α | null | undefined`, as produced by zod
`.nullish()` fields: `undef` = key absent, `null` = explicit JSON null. -/
inductive Nullish (α : Type) where
  | undef
  | null
  | val (a : α)
deriving DecidableEq, Repr

/-- Nullish coalescing `x ?? d`. -/
def Nullish.getD {α : Type} (n : Nullish α) (d : α) : α :=
  match n with
  | .val a => a
  | _ => d

/-- The idiom `x ?? undefined` collapsed to the Prisma notion of "field not
provided": both `null` and `undefined` become `none`. -/
def Nullish.toOption {α : Type} (n : Nullish α) : Option α :=
  match n with
  | .val a => some a
  | _ => none

/-- JS truthiness of a nullish string: `undefined`, `null` and `""` are
falsy. -/
def strTruthy (n : Nullish String) : Bool :=
  match n with
  | .val s => !(s == "")
  | _ => false

/-- JS truthiness of a nullish number: `undefined`, `null` and `0` are
falsy. -/
def intTruthy (n : Nullish Int) : Bool :=
  match n with
  | .val i => !(i == 0)
  | _ => false

/-- A nullish value that was actually supplied (neither `null` nor
absent). -/
def supplied {α : Type} (n : Nullish α) : Bool :=
  match n with
  | .val _ => true
  | _ => false

/-- The idiom `x ?? undefined` on an `unknown`-typed (raw JSON) field: a
supplied JSON `null` collapses to "not provided". -/
def jsonCoalesce (v : Option Json) : Option Json :=
  match v with
  | some .null => none
  | v => v

/-- The `ObservationLevel` enum of the Prisma schema. -/
inductive ObservationLevel where
  | DEBUG
  | DEFAULT
  | WARNING
  | ERROR
deriving DecidableEq, Repr

/-- The `ObservationType` enum of the Prisma schema. -/
inductive ObservationType where
  | EVENT
  | SPAN
  | GENERATION
deriving DecidableEq, Repr

/-- The `usage` block of both zod schemas:
`{promptTokens?, completionTokens?, totalTokens?}`, each `.number().nullish()`. -/
structure Usage where
  promptTokens : Nullish Int
  completionTokens : Nullish Int
  totalTokens : Nullish Int
deriving DecidableEq, Repr

/-- The object built by the spread
`{...usage, totalTokens: !usage.totalTokens && (usage.promptTokens || usage.completionTokens) ? (usage.promptTokens ?? 0) + (usage.completionTokens ?? 0) : usage.totalTokens}`. -/
def deriveTotal (u : Usage) : Usage :=
  { u with totalTokens :=
      if !(intTruthy u.totalTokens) && (intTruthy u.promptTokens || intTruthy u.completionTokens)
      then .val (u.promptTokens.getD 0 + u.completionTokens.getD 0)
      else u.totalTokens }

/-- The expression `usage ? {...usage, totalTokens: ...} : undefined`
(identical on the create and patch paths). -/
def calculatedUsage (usage : Option Usage) : Option Usage :=
  match usage with
  | some u => some (deriveTotal u)
  | none => none

/-! ### Parsed payloads (the output of `GenerationsCreateSchema.parse` /
`GenerationPatchSchema.parse`).  zod objects strip undeclared keys, so the
parsed value carries exactly the declared fields. -/

/-- Output of `GenerationsCreateSchema.parse`.  `prompt` and `metadata` are
`z.unknown().nullish()`: any JSON value, or absent.  `usage` is a required
key (no `.nullish()` on the object). -/
structure CreatePayload where
  traceId : Nullish String
  name : Nullish String
  startTime : Nullish String
  endTime : Nullish String
  model : Nullish String
  modelParameters : Nullish (List (String × Json))
  prompt : Option Json
  completion : Nullish String
  usage : Usage
  metadata : Option Json
  parentObservationId : Nullish String
  level : Nullish ObservationLevel
  statusMessage : Nullish String

/-- Output of `GenerationPatchSchema.parse`: the create fields minus
`traceId`/`startTime`/`parentObservationId`, plus required `generationId`. -/
structure PatchPayload where
  generationId : String
  name : Nullish String
  endTime : Nullish String
  model : Nullish String
  modelParameters : Nullish (List (String × Json))
  prompt : Option Json
  completion : Nullish String
  usage : Usage
  metadata : Option Json
  level : Nullish ObservationLevel
  statusMessage : Nullish String

/-! ### Field parsers mirroring the zod schema (`z.string().nullish()`,
`z.string().datetime().nullish()`, `z.number().nullish()`,
`z.record(...)`, `z.nativeEnum(ObservationLevel)`, required
`z.object({...})` for `usage`, required `z.string()` for `generationId`).
The zod ISO-8601 validator is an external oracle `dt : String → Bool`. -/

def parseNullishStr (v : Option Json) : Except String (Nullish String) :=
  match v with
  | none => .ok .undef
  | some .null => .ok .null
  | some (.str s) => .ok (.val s)
  | some _ => .error "Expected string, received other"

def parseDatetimeStr (dt : String → Bool) (v : Option Json) :
    Except String (Nullish String) :=
  match v with
  | none => .ok .undef
  | some .null => .ok .null
  | some (.str s) => if dt s then .ok (.val s) else .error "Invalid datetime"
  | some _ => .error "Expected string, received other"

def parseNullishNum (v : Option Json) : Except String (Nullish Int) :=
  match v with
  | none => .ok .undef
  | some .null => .ok .null
  | some (.num n) => .ok (.val n)
  | some _ => .error "Expected number, received other"

def parseReqStr (v : Option Json) : Except String String :=
  match v with
  | some (.str s) => .ok s
  | _ => .error "Required"

/-- Value of a `modelParameters` record entry:
`z.union([z.string(), z.number(), z.boolean()]).nullish()`. -/
def parseParamValue (j : Json) : Except String Json :=
  match j with
  | .str _ => .ok j
  | .num _ => .ok j
  | .bool _ => .ok j
  | .null => .ok j
  | _ => .error "Invalid model parameter value"

def parseParamEntries (kvs : List (String × Json)) :
    Except String (List (String × Json)) :=
  kvs.mapM (fun kv => do
    let v ← parseParamValue kv.2
    pure (kv.1, v))

def parseParams (v : Option Json) :
    Except String (Nullish (List (String × Json))) :=
  match v with
  | none => .ok .undef
  | some .null => .ok .null
  | some (.obj kvs) => do
      let kvs2 ← parseParamEntries kvs
      .ok (.val kvs2)
  | some _ => .error "Expected record, received other"

def parseLevel (v : Option Json) : Except String (Nullish ObservationLevel) :=
  match v with
  | none => .ok .undef
  | some .null => .ok .null
  | some (.str "DEBUG") => .ok (.val .DEBUG)
  | some (.str "DEFAULT") => .ok (.val .DEFAULT)
  | some (.str "WARNING") => .ok (.val .WARNING)
  | some (.str "ERROR") => .ok (.val .ERROR)
  | some _ => .error "Invalid enum value"

def parseUsage (v : Option Json) : Except String Usage :=
  match v with
  | some (.obj kvs) => do
      let p ← parseNullishNum (kvs.lookup "promptTokens")
      let c ← parseNullishNum (kvs.lookup "completionTokens")
      let t ← parseNullishNum (kvs.lookup "totalTokens")
      .ok ⟨p, c, t⟩
  | _ => .error "Required usage object"

/-- Parse as `GenerationsCreateSchema.parse(req.body)`: fails unless the body is an
object with valid declared fields; undeclared keys are stripped (they are
simply never read). -/
def parseCreate (dt : String → Bool) (body : Json) :
    Except String CreatePayload :=
  match body with
  | .obj kvs => do
      let traceId ← parseNullishStr (kvs.lookup "traceId")
      let name ← parseNullishStr (kvs.lookup "name")
      let startTime ← parseDatetimeStr dt (kvs.lookup "startTime")
      let endTime ← parseDatetimeStr dt (kvs.lookup "endTime")
      let model ← parseNullishStr (kvs.lookup "model")
      let modelParameters ← parseParams (kvs.lookup "modelParameters")
      let prompt := kvs.lookup "prompt"
      let completion ← parseNullishStr (kvs.lookup "completion")
      let usage ← parseUsage (kvs.lookup "usage")
      let metadata := kvs.lookup "metadata"
      let parentObservationId ← parseNullishStr (kvs.lookup "parentObservationId")
      let level ← parseLevel (kvs.lookup "level")
      let statusMessage ← parseNullishStr (kvs.lookup "statusMessage")
      .ok { traceId, name, startTime, endTime, model, modelParameters,
            prompt, completion, usage, metadata, parentObservationId,
            level, statusMessage }
  | _ => .error "Expected object"

/-- Parse as `GenerationPatchSchema.parse(req.body)`. -/
def parsePatch (dt : String → Bool) (body : Json) :
    Except String PatchPayload :=
  match body with
  | .obj kvs => do
      let generationId ← parseReqStr (kvs.lookup "generationId")
      let name ← parseNullishStr (kvs.lookup "name")
      let endTime ← parseDatetimeStr dt (kvs.lookup "endTime")
      let model ← parseNullishStr (kvs.lookup "model")
      let modelParameters ← parseParams (kvs.lookup "modelParameters")
      let prompt := kvs.lookup "prompt"
      let completion ← parseNullishStr (kvs.lookup "completion")
      let usage ← parseUsage (kvs.lookup "usage")
      let metadata := kvs.lookup "metadata"
      let level ← parseLevel (kvs.lookup "level")
      let statusMessage ← parseNullishStr (kvs.lookup "statusMessage")
      .ok { generationId, name, endTime, model, modelParameters,
            prompt, completion, usage, metadata, level, statusMessage }
  | _ => .error "Expected object"

/-! ### Authorization scope and resource references. -/

/-- The project-bound scope `verifyAuthHeaderAndReturnScope` resolves a
credential to. -/
structure Scope where
  projectId : String
deriving DecidableEq, Repr

inductive RefType where
  | trace
  | observation
deriving DecidableEq, Repr

/-- One element of the list handed to `checkApiAccessScope`:
`{ type: "trace" | "observation", id }`. -/
structure Ref where
  type : RefType
  id : String
deriving DecidableEq, Repr

/-- The ref list built on the create path (lines 97-102):
`[...(traceId ? [{type:"trace",id:traceId}] : []), ...(parentObservationId ? [{type:"observation",id:parentObservationId}] : [])]`.
Both spreads are guarded by JS truthiness, so `null` and `""` contribute no
ref, exactly like an absent field. -/
def createRefs (p : CreatePayload) : List Ref :=
  (if strTruthy p.traceId then [⟨.trace, p.traceId.getD ""⟩] else []) ++
  (if strTruthy p.parentObservationId
   then [⟨.observation, p.parentObservationId.getD ""⟩] else [])

/-! ### The data object handed to `prisma.observation.create`. -/

/-- The `trace:` relation argument: `connect` to an existing trace, or
inline-`create` a trace `{ name, project: { connect: { id } } }`. -/
inductive TraceAction where
  | connect (id : String)
  | create (name : Nullish String) (projectId : String)

/-- The object literal at lines 122-148.  An `Option` field with value
`none` is a key whose value is `undefined`, which Prisma treats as "not
provided". -/
structure CreateData where
  trace : TraceAction
  type : ObservationType
  name : Nullish String
  startTime : Option String
  endTime : Option String
  metadata : Option Json
  model : Option String
  modelParameters : Option (List (String × Json))
  input : Option Json
  output : Option Json
  usage : Option Usage
  level : Option ObservationLevel
  statusMessage : Option String
  parent : Option String

/-- The expression `x ? new Date(x) : undefined` on a nullish datetime
string: the `Date` wrapper is modelled by the ISO string itself. -/
def dateIfTruthy (n : Nullish String) : Option String :=
  match n with
  | .val s => if s == "" then none else some s
  | _ => none

/-- The `data:` object of `prisma.observation.create` (lines 122-148),
as a function of the scope of the caller and the parsed payload. -/
def createData (scope : Scope) (p : CreatePayload) : CreateData :=
  { trace :=
      if strTruthy p.traceId
      then .connect (p.traceId.getD "")
      else .create p.name scope.projectId
    type := .GENERATION
    name := p.name
    startTime := dateIfTruthy p.startTime
    endTime := dateIfTruthy p.endTime
    metadata := jsonCoalesce p.metadata
    model := p.model.toOption
    modelParameters := p.modelParameters.toOption
    input := jsonCoalesce p.prompt
    output :=
      match p.completion with
      | .val s => if s == "" then none else some (.obj [("completion", .str s)])
      | _ => none
    usage := calculatedUsage (some p.usage)
    level := p.level.toOption
    statusMessage := p.statusMessage.toOption
    parent :=
      if strTruthy p.parentObservationId
      then some (p.parentObservationId.getD "")
      else none }

/-! ### The data object handed to `prisma.observation.update` (patch).
The JS literal has four fixed keys (possibly with value `undefined`) plus
the spread of `Object.entries(fields).filter(([_, v]) => v !== null && v !== undefined)`,
where `fields` is the parse result minus the destructured
`generationId`/`endTime`/`prompt`/`completion`/`usage`.  The update data is
modelled as the association list of the entries of that object; `dundef` marks a
key present with value `undefined` (ignored by Prisma). -/

/-- A value occurring in the `data:` object of the update call. -/
inductive DataValue where
  | dundef
  | dstr (s : String)
  | ddate (iso : String)
  | djson (j : Json)
  | dusage (u : Usage)
  | dparams (ps : List (String × Json))
  | dlevel (l : ObservationLevel)

/-- Entry contributed to the filtered spread by one field: present iff the
filter `v !== null && v !== undefined` keeps it. -/
def filteredEntry (k : String) (v : Option DataValue) :
    List (String × DataValue) :=
  match v with
  | some d => [(k, d)]
  | none => []

/-- Spread of `Object.entries(fields).filter(([_, v]) => v !== null && v !== undefined)`
for the six rest fields, in schema declaration order.  A nullish field
survives the filter exactly when it was supplied non-null; the
`unknown`-typed `metadata` survives unless the supplied JSON value is
`null`. -/
def restEntries (p : PatchPayload) : List (String × DataValue) :=
  filteredEntry "name" (p.name.toOption.map .dstr) ++
  (filteredEntry "model" (p.model.toOption.map .dstr) ++
  (filteredEntry "modelParameters" (p.modelParameters.toOption.map .dparams) ++
  (filteredEntry "metadata" ((jsonCoalesce p.metadata).map .djson) ++
  (filteredEntry "level" (p.level.toOption.map .dlevel) ++
  filteredEntry "statusMessage" (p.statusMessage.toOption.map .dstr)))))

/-- The `data:` object of `prisma.observation.update` (lines 190-200). -/
def patchUpdateEntries (p : PatchPayload) : List (String × DataValue) :=
  ("endTime",
    match p.endTime with
    | .val s => if s == "" then .dundef else .ddate s
    | _ => .dundef) ::
  ("input",
    match jsonCoalesce p.prompt with
    | some j => .djson j
    | none => .dundef) ::
  ("output",
    match p.completion with
    | .val s => if s == "" then .dundef
                else .djson (.obj [("completion", .str s)])
    | _ => .dundef) ::
  ("usage",
    match calculatedUsage (some p.usage) with
    | some u => .dusage u
    | none => .dundef) ::
  restEntries p

/-- The value a key of the update data actually carries into the store:
`none` when the key is absent or its value is `undefined` (Prisma reads
both as "leave the stored column untouched"). -/
def sentValue (entries : List (String × DataValue)) (k : String) :
    Option DataValue :=
  match entries.lookup k with
  | some .dundef => none
  | some v => some v
  | none => none

/-- The keys present in the update data object. -/
def updateKeys (p : PatchPayload) : List String :=
  (patchUpdateEntries p).map Prod.fst

/-! ### The HTTP handler. -/

/-- Result of `verifyAuthHeaderAndReturnScope(req.headers.authorization)`:
either `validKey: false` with an error message, or `validKey: true` with the
resolved project scope. -/
inductive AuthResult where
  | invalid (error : String)
  | valid (scope : Scope)

/-- A stored observation record, as returned by the Prisma client and
serialized into the 201 response. -/
def StoredObservation : Type := Json

/-- External collaborators, at exactly the interface the handler uses:
the zod datetime validator, credential verification, `checkApiAccessScope`,
and the Prisma store (whose failures are thrown and caught as 400s). -/
structure Env where
  dt : String → Bool
  auth : AuthResult
  access : Scope → List Ref → Bool
  create : CreateData → Except String StoredObservation
  update : String → List (String × DataValue) → Except String StoredObservation

/-- One call the handler makes to a collaborator, logged in call order. -/
inductive Effect where
  | authCheck
  | parseAttempt
  | accessCheck (refs : List Ref)
  | storeCreate (d : CreateData)
  | storeUpdate (id : String) (d : List (String × DataValue))

/-- The JSON body of a response. -/
inductive ResponseBody where
  | message (m : String)
  | failure (success : Bool) (message : String) (error : Option String)
  | record (o : StoredObservation)

structure Response where
  status : Nat
  body : ResponseBody

/-- The POST branch (lines 78-160): parse, access check, create; any thrown
error (schema or store) is caught and folded into a 400. -/
def createBranch (env : Env) (scope : Scope) (body : Json) :
    Response × List Effect :=
  match parseCreate env.dt body with
  | .error e =>
      (⟨400, .failure false "Invalid request data" (some e)⟩, [.parseAttempt])
  | .ok p =>
      let refs := createRefs p
      if env.access scope refs then
        let d := createData scope p
        match env.create d with
        | .ok o =>
            (⟨201, .record o⟩,
             [.parseAttempt, .accessCheck refs, .storeCreate d])
        | .error e =>
            (⟨400, .failure false "Invalid request data" (some e)⟩,
             [.parseAttempt, .accessCheck refs, .storeCreate d])
      else
        (⟨403, .failure false "Access denied" none⟩,
         [.parseAttempt, .accessCheck refs])

/-- The PATCH branch (lines 161-213): parse, access check on the target
generation, update; any thrown error is caught and folded into a 400. -/
def patchBranch (env : Env) (scope : Scope) (body : Json) :
    Response × List Effect :=
  match parsePatch env.dt body with
  | .error e =>
      (⟨400, .failure false "Invalid request data" (some e)⟩, [.parseAttempt])
  | .ok p =>
      let refs : List Ref := [⟨.observation, p.generationId⟩]
      if env.access scope refs then
        let d := patchUpdateEntries p
        match env.update p.generationId d with
        | .ok o =>
            (⟨201, .record o⟩,
             [.parseAttempt, .accessCheck refs, .storeUpdate p.generationId d])
        | .error e =>
            (⟨400, .failure false "Invalid request data" (some e)⟩,
             [.parseAttempt, .accessCheck refs, .storeUpdate p.generationId d])
      else
        (⟨403, .failure false "Access denied" none⟩,
         [.parseAttempt, .accessCheck refs])

/-- The exported `handler` (lines 57-214).  Mirrors the control flow
exactly: the guard `if (req.method !== "POST") return 405` precedes the
credential check, so the subsequent `else if (req.method === "PATCH")`
branch is unreachable; it is kept here as in the source.  The final
fall-through (no method matches, which cannot happen past the guard) sends
no response in the TS code; it is modelled by a sentinel status 0. -/
def handler (env : Env) (method : String) (body : Json) :
    Response × List Effect :=
  if method ≠ "POST" then
    (⟨405, .message "Method not allowed"⟩, [])
  else
    match env.auth with
    | .invalid err => (⟨401, .failure false err none⟩, [.authCheck])
    | .valid scope =>
        if method = "POST" then
          let (r, effs) := createBranch env scope body
          (r, .authCheck :: effs)
        else if method = "PATCH" then
          let (r, effs) := patchBranch env scope body
          (r, .authCheck :: effs)
        else
          (⟨0, .message ""⟩, [.authCheck])

/-! ### Claim-level specification predicates (formalisations of the spec
sentences, to be compared with the embedded code). -/

/-- Common shape of the deriveUsage sentence: `promptTokens` and
`completionTokens` pass through unchanged, `totalTokens` is produced by
`total`; an absent usage stays absent. -/
def usageSpecWith (total : Usage → Nullish Int) (u r : Option Usage) : Prop :=
  match u, r with
  | none, r => r = none
  | some u, some r' =>
      r'.promptTokens = u.promptTokens ∧
      r'.completionTokens = u.completionTokens ∧
      r'.totalTokens = total u
  | some _, none => False

/-- Total of the deriveUsage sentence as written: keep a truthy
`totalTokens`; otherwise, if either `promptTokens` or `completionTokens` is
present (supplied non-null, a present `0` included), use their sum;
otherwise leave `totalTokens` as it was. -/
def totalAsWritten (u : Usage) : Nullish Int :=
  if intTruthy u.totalTokens then u.totalTokens
  else if supplied u.promptTokens || supplied u.completionTokens
  then .val (u.promptTokens.getD 0 + u.completionTokens.getD 0)
  else u.totalTokens

/-- Amended `totalTokens`: the sum is used only when either token count is
truthy (present and nonzero), matching the JS `||` test. -/
def totalAmended (u : Usage) : Nullish Int :=
  if intTruthy u.totalTokens then u.totalTokens
  else if intTruthy u.promptTokens || intTruthy u.completionTokens
  then .val (u.promptTokens.getD 0 + u.completionTokens.getD 0)
  else u.totalTokens

/-- The C4 sentence as written: `endTime`, `input`, `output`, `usage` are
forwarded to the update whenever present in the payload (a present-but-empty
value included). -/
def alwaysForwardedAsWritten (p : PatchPayload) : Prop :=
  (supplied p.endTime → (sentValue (patchUpdateEntries p) "endTime").isSome) ∧
  (p.prompt.isSome → (sentValue (patchUpdateEntries p) "input").isSome) ∧
  (supplied p.completion → (sentValue (patchUpdateEntries p) "output").isSome) ∧
  (sentValue (patchUpdateEntries p) "usage").isSome

/-- The C6 sentence as written: on create, `output` is `{completion: v}`
exactly when the supplied completion is non-null, and `input` is the raw
supplied prompt value unmodified. -/
def createOutputInputAsWritten (scope : Scope) (p : CreatePayload) : Prop :=
  (createData scope p).output =
    (match p.completion with
     | .val s => some (.obj [("completion", .str s)])
     | _ => none) ∧
  (createData scope p).input = p.prompt

/-- The keys the patch update data may mention. -/
def allowedUpdateKeys : List String :=
  ["endTime", "input", "output", "usage", "name", "model",
   "modelParameters", "metadata", "level", "statusMessage"]

/-! ### Concrete fixtures for closed theorems and witnesses. -/

/-- Stand-in for the zod ISO-8601 oracle in fixtures: any nonempty string
(the fixtures below never carry datetime fields, so only totality
matters). -/
def dtIso (s : String) : Bool := !(s == "")

def obsFixture : StoredObservation := .obj [("id", .str "obs-1")]

def scopeFixture : Scope := ⟨"project-1"⟩

/-- Valid credential, every referenced resource owned by the project of the
caller, store succeeds. -/
def envOk : Env :=
  { dt := dtIso
    auth := .valid scopeFixture
    access := fun _ _ => true
    create := fun _ => .ok obsFixture
    update := fun _ _ => .ok obsFixture }

/-- Valid credential, but every referenced resource is owned by a different
project, so `checkApiAccessScope` reports `false`. -/
def envDenied : Env := { envOk with access := fun _ _ => false }

/-- Missing/invalid credential. -/
def envNoAuth : Env := { envOk with auth := .invalid "Invalid credentials" }

def patchBodyOk : Json :=
  .obj [("generationId", .str "gen-1"), ("usage", .obj [])]

def patchPayloadOk : PatchPayload :=
  { generationId := "gen-1", name := .undef, endTime := .undef,
    model := .undef, modelParameters := .undef, prompt := none,
    completion := .undef, usage := ⟨.undef, .undef, .undef⟩,
    metadata := none, level := .undef, statusMessage := .undef }

def patchBodyCross : Json :=
  .obj [("generationId", .str "gen-other"), ("usage", .obj [])]

def postBodyCross : Json :=
  .obj [("traceId", .str "trace-other"), ("usage", .obj [])]

def postBodyNoTrace : Json :=
  .obj [("name", .str "my-gen"), ("usage", .obj [])]

def createPayloadNoTrace : CreatePayload :=
  { traceId := .undef, name := .val "my-gen", startTime := .undef,
    endTime := .undef, model := .undef, modelParameters := .undef,
    prompt := none, completion := .undef,
    usage := ⟨.undef, .undef, .undef⟩, metadata := none,
    parentObservationId := .undef, level := .undef, statusMessage := .undef }

def postBodyEmptyTrace : Json :=
  .obj [("traceId", .str ""), ("usage", .obj [])]

def createPayloadEmptyTrace : CreatePayload :=
  { createPayloadNoTrace with traceId := .val "", name := .undef }

/-- Patch body whose undeclared keys (`traceId`, `startTime`,
`parentObservationId`, `type`) the schema strips. -/
def patchBodyExtraKeys : Json :=
  .obj [("generationId", .str "gen-1"), ("usage", .obj []),
        ("traceId", .str "trace-9"), ("startTime", .str "2023-01-01T00:00:00Z"),
        ("parentObservationId", .str "obs-9"), ("type", .str "SPAN")]

/-- Usage block `{promptTokens: 0}`: present but falsy token count. -/
def usageCex : Usage := ⟨.val 0, .undef, .undef⟩

/-- Patch payload supplying `completion: ""` (present but empty). -/
def patchPayloadEmptyCompletion : PatchPayload :=
  { patchPayloadOk with completion := .val "" }

/-- Create payload supplying `completion: ""` and `prompt: null`. -/
def createPayloadCex : CreatePayload :=
  { createPayloadNoTrace with completion := .val "", prompt := some .null }

/-! ## Helper lemmas: what each key of the patch update data sends to the
store. -/

theorem lookup_cons_skip {k k' : String} {v : DataValue}
    {rest : List (String × DataValue)} (h : (k == k') = false) :
    ((k', v) :: rest).lookup k = rest.lookup k := by
  simp [List.lookup, h]

theorem lookup_fentry_skip {k k' : String} {v : Option DataValue}
    {rest : List (String × DataValue)} (h : (k == k') = false) :
    (filteredEntry k' v ++ rest).lookup k = rest.lookup k := by
  cases v <;> simp [filteredEntry, List.lookup, h]

theorem lookup_fentry_here {k : String} {v : Option DataValue}
    {rest : List (String × DataValue)} :
    (filteredEntry k v ++ rest).lookup k =
      (match v with
       | some d => some d
       | none => rest.lookup k) := by
  cases v <;> simp [filteredEntry, List.lookup]

theorem lookup_fentry_last {k : String} {v : Option DataValue} :
    (filteredEntry k v).lookup k = v := by
  cases v <;> simp [filteredEntry, List.lookup]

theorem lookup_fentry_last_skip {k k' : String} {v : Option DataValue}
    (h : (k == k') = false) :
    (filteredEntry k' v).lookup k = none := by
  cases v <;> simp [filteredEntry, List.lookup, h]

theorem sentValue_endTime (p : PatchPayload) :
    sentValue (patchUpdateEntries p) "endTime" =
      (dateIfTruthy p.endTime).map .ddate := by
  unfold sentValue patchUpdateEntries
  simp [List.lookup]
  cases p.endTime with
  | val s => by_cases hs : s = "" <;> simp [dateIfTruthy, hs]
  | undef => simp [dateIfTruthy]
  | null => simp [dateIfTruthy]

theorem sentValue_input (p : PatchPayload) :
    sentValue (patchUpdateEntries p) "input" =
      (jsonCoalesce p.prompt).map .djson := by
  unfold sentValue patchUpdateEntries
  rw [lookup_cons_skip (by decide)]
  simp [List.lookup]
  cases jsonCoalesce p.prompt <;> simp

theorem sentValue_output (p : PatchPayload) :
    sentValue (patchUpdateEntries p) "output" =
      (match p.completion with
       | .val s => if s = "" then none
                   else some (.djson (.obj [("completion", .str s)]))
       | _ => none) := by
  unfold sentValue patchUpdateEntries
  rw [lookup_cons_skip (by decide), lookup_cons_skip (by decide)]
  simp [List.lookup]
  cases p.completion with
  | val s => by_cases hs : s = "" <;> simp [hs]
  | undef => simp
  | null => simp

theorem sentValue_usage (p : PatchPayload) :
    sentValue (patchUpdateEntries p) "usage" =
      some (.dusage (deriveTotal p.usage)) := by
  unfold sentValue patchUpdateEntries
  rw [lookup_cons_skip (by decide), lookup_cons_skip (by decide),
      lookup_cons_skip (by decide)]
  simp [List.lookup, calculatedUsage]

theorem sentValue_name (p : PatchPayload) :
    sentValue (patchUpdateEntries p) "name" = p.name.toOption.map .dstr := by
  unfold sentValue patchUpdateEntries restEntries
  rw [lookup_cons_skip (by decide), lookup_cons_skip (by decide),
      lookup_cons_skip (by decide), lookup_cons_skip (by decide),
      lookup_fentry_here,
      lookup_fentry_skip (by decide), lookup_fentry_skip (by decide),
      lookup_fentry_skip (by decide), lookup_fentry_skip (by decide),
      lookup_fentry_last_skip (by decide)]
  cases p.name <;> simp [Nullish.toOption]

theorem sentValue_model (p : PatchPayload) :
    sentValue (patchUpdateEntries p) "model" = p.model.toOption.map .dstr := by
  unfold sentValue patchUpdateEntries restEntries
  rw [lookup_cons_skip (by decide), lookup_cons_skip (by decide),
      lookup_cons_skip (by decide), lookup_cons_skip (by decide),
      lookup_fentry_skip (by decide), lookup_fentry_here,
      lookup_fentry_skip (by decide), lookup_fentry_skip (by decide),
      lookup_fentry_skip (by decide), lookup_fentry_last_skip (by decide)]
  cases p.model <;> simp [Nullish.toOption]

theorem sentValue_modelParameters (p : PatchPayload) :
    sentValue (patchUpdateEntries p) "modelParameters" =
      p.modelParameters.toOption.map .dparams := by
  unfold sentValue patchUpdateEntries restEntries
  rw [lookup_cons_skip (by decide), lookup_cons_skip (by decide),
      lookup_cons_skip (by decide), lookup_cons_skip (by decide),
      lookup_fentry_skip (by decide), lookup_fentry_skip (by decide),
      lookup_fentry_here,
      lookup_fentry_skip (by decide), lookup_fentry_skip (by decide),
      lookup_fentry_last_skip (by decide)]
  cases p.modelParameters <;> simp [Nullish.toOption]

theorem sentValue_metadata (p : PatchPayload) :
    sentValue (patchUpdateEntries p) "metadata" =
      (jsonCoalesce p.metadata).map .djson := by
  unfold sentValue patchUpdateEntries restEntries
  rw [lookup_cons_skip (by decide), lookup_cons_skip (by decide),
      lookup_cons_skip (by decide), lookup_cons_skip (by decide),
      lookup_fentry_skip (by decide), lookup_fentry_skip (by decide),
      lookup_fentry_skip (by decide), lookup_fentry_here,
      lookup_fentry_skip (by decide), lookup_fentry_last_skip (by decide)]
  cases jsonCoalesce p.metadata <;> simp

theorem sentValue_level (p : PatchPayload) :
    sentValue (patchUpdateEntries p) "level" = p.level.toOption.map .dlevel := by
  unfold sentValue patchUpdateEntries restEntries
  rw [lookup_cons_skip (by decide), lookup_cons_skip (by decide),
      lookup_cons_skip (by decide), lookup_cons_skip (by decide),
      lookup_fentry_skip (by decide), lookup_fentry_skip (by decide),
      lookup_fentry_skip (by decide), lookup_fentry_skip (by decide),
      lookup_fentry_here, lookup_fentry_last_skip (by decide)]
  cases p.level <;> simp [Nullish.toOption]

theorem sentValue_statusMessage (p : PatchPayload) :
    sentValue (patchUpdateEntries p) "statusMessage" =
      p.statusMessage.toOption.map .dstr := by
  unfold sentValue patchUpdateEntries restEntries
  rw [lookup_cons_skip (by decide), lookup_cons_skip (by decide),
      lookup_cons_skip (by decide), lookup_cons_skip (by decide),
      lookup_fentry_skip (by decide), lookup_fentry_skip (by decide),
      lookup_fentry_skip (by decide), lookup_fentry_skip (by decide),
      lookup_fentry_skip (by decide), lookup_fentry_last]
  cases p.statusMessage <;> simp [Nullish.toOption]

/-- Membership `k ∈ keys (filteredEntry k2 v)` forces `k = k2`. -/
theorem mem_fentry_keys {k k' : String} {v : Option DataValue}
    (h : k ∈ (filteredEntry k' v).map Prod.fst) : k = k' := by
  cases v with
  | none => simp [filteredEntry] at h
  | some d => simpa [filteredEntry] using h

end Generations

namespace Generations

/-! ## Claim theorems. -/

/-- C1: the claim says a PATCH request with a valid credential, a
schema-valid payload and an in-scope generationId gets 201 with the updated
observation.  The code instead answers 405 and performs no effect at all:
the guard `if (req.method !== "POST")` precedes the credential check, so the
PATCH branch is dead code.  This theorem evaluates the handler at exactly
the scenario of the claim: the payload parses, the access check would grant
access, yet the response is 405 with no collaborator call. -/
theorem patch_valid_request_gets_405_not_201 :
    parsePatch envOk.dt patchBodyOk = .ok patchPayloadOk ∧
    envOk.access scopeFixture [⟨.observation, "gen-1"⟩] = true ∧
    handler envOk "PATCH" patchBodyOk =
      (⟨405, .message "Method not allowed"⟩, []) :=
  ⟨rfl, rfl, rfl⟩

/-- C2 counterexample: for `usage = {promptTokens: 0}` the claim as written
(sum whenever a token count is "present") demands `totalTokens = 0`, but
the code computes the sum only when a token count is truthy, so the derived
`totalTokens` stays absent. -/
theorem usage_spec_as_written_fails :
    ¬ usageSpecWith totalAsWritten (some usageCex)
        (calculatedUsage (some usageCex)) := by
  intro h
  have h3 := h.2.2
  simp [usageCex, calculatedUsage, deriveTotal, totalAsWritten, intTruthy,
        supplied, Nullish.getD] at h3

/-- C2 amended: for every usage value, the derived usage keeps promptTokens
and completionTokens, keeps a truthy totalTokens, replaces a falsy
totalTokens by the sum `(promptTokens ?? 0) + (completionTokens ?? 0)` when
either count is truthy (present and nonzero), and otherwise leaves
totalTokens as supplied; an absent usage stays absent. -/
theorem calculatedUsage_meets_amended_sentence (u : Option Usage) :
    usageSpecWith totalAmended u (calculatedUsage u) := by
  cases u with
  | none => simp [usageSpecWith, calculatedUsage]
  | some u =>
      refine ⟨rfl, rfl, ?_⟩
      unfold deriveTotal totalAmended
      cases hT : intTruthy u.totalTokens <;>
        cases hPC : (intTruthy u.promptTokens || intTruthy u.completionTokens) <;>
          simp [hT, hPC]

/-- C3: with every referenced resource owned by a different project
(access oracle reports false), a create responds 403 with no store call —
but a patch responds 405 from the method guard, not the claimed 403: the
PATCH branch with its access check is unreachable.  Both halves are
evaluated at concrete cross-project requests. -/
theorem cross_project_create_403_patch_405 :
    handler envDenied "POST" postBodyCross =
      (⟨403, .failure false "Access denied" none⟩,
       [.authCheck, .parseAttempt, .accessCheck [⟨.trace, "trace-other"⟩]]) ∧
    handler envDenied "PATCH" patchBodyCross =
      (⟨405, .message "Method not allowed"⟩, []) :=
  ⟨rfl, rfl⟩

/-- C4 counterexample: a patch supplying `completion: ""` (present but
empty) does not forward `output` to the update call — the wrap is guarded
by JS truthiness, so the claim that a present-but-empty value still
overwrites is false. -/
theorem patch_forward_claim_fails_on_empty_completion :
    ¬ alwaysForwardedAsWritten patchPayloadEmptyCompletion := by
  intro h
  exact absurd (h.2.2.1 rfl) (by decide)

/-- C4 amended: in the patch merge, `endTime` is forwarded exactly when
present and nonempty, `input` exactly when the supplied prompt is non-null
(an empty string still overwrites), `output` as the wrapped completion
exactly when the completion is non-null and nonempty, and the computed
usage is always forwarded. -/
theorem patch_merge_forwards_amended (p : PatchPayload) :
    sentValue (patchUpdateEntries p) "endTime" =
      (dateIfTruthy p.endTime).map .ddate ∧
    sentValue (patchUpdateEntries p) "input" =
      (jsonCoalesce p.prompt).map .djson ∧
    sentValue (patchUpdateEntries p) "output" =
      (match p.completion with
       | .val s => if s = "" then none
                   else some (.djson (.obj [("completion", .str s)]))
       | _ => none) ∧
    sentValue (patchUpdateEntries p) "usage" =
      some (.dusage (deriveTotal p.usage)) :=
  ⟨sentValue_endTime p, sentValue_input p, sentValue_output p,
   sentValue_usage p⟩

/-- C5: in the patch merge, each of `name`, `model`, `modelParameters`,
`metadata`, `level`, `statusMessage` is forwarded to the update call exactly
when its supplied value is neither null nor absent (for the raw-JSON
`metadata`, a supplied JSON null counts as null); otherwise the key carries
`undefined` or is missing, leaving the stored value untouched. -/
theorem patch_elision_semantics (p : PatchPayload) :
    sentValue (patchUpdateEntries p) "name" = p.name.toOption.map .dstr ∧
    sentValue (patchUpdateEntries p) "model" = p.model.toOption.map .dstr ∧
    sentValue (patchUpdateEntries p) "modelParameters" =
      p.modelParameters.toOption.map .dparams ∧
    sentValue (patchUpdateEntries p) "metadata" =
      (jsonCoalesce p.metadata).map .djson ∧
    sentValue (patchUpdateEntries p) "level" = p.level.toOption.map .dlevel ∧
    sentValue (patchUpdateEntries p) "statusMessage" =
      p.statusMessage.toOption.map .dstr :=
  ⟨sentValue_name p, sentValue_model p, sentValue_modelParameters p,
   sentValue_metadata p, sentValue_level p, sentValue_statusMessage p⟩

/-- C6 counterexample: on create, a payload with `completion: ""` and
`prompt: null` refutes the claim as written — the code leaves `output`
unset for the non-null but empty completion (truthiness, not a null test),
so the claimed wrap `{completion: ""}` does not happen. -/
theorem create_output_input_claim_fails :
    ¬ createOutputInputAsWritten scopeFixture createPayloadCex := by
  intro h
  exact Option.noConfusion h.1

/-- C6 amended: on create, `output` is the wrapped completion exactly when
the supplied completion is non-null and nonempty, and `input` is the raw
supplied prompt except that a supplied null is collapsed to unset. -/
theorem createData_output_input_amended (scope : Scope) (p : CreatePayload) :
    (createData scope p).output =
      (match p.completion with
       | .val s => if s = "" then none
                   else some (.obj [("completion", .str s)])
       | _ => none) ∧
    (createData scope p).input =
      p.prompt.bind (fun j => match j with | .null => none | j => some j) := by
  constructor
  · cases hc : p.completion with
    | val s => by_cases hs : s = "" <;> simp [createData, hc, hs]
    | undef => simp [createData, hc]
    | null => simp [createData, hc]
  · cases hp : p.prompt with
    | none => simp [createData, jsonCoalesce, hp]
    | some j => cases j <;> simp [createData, jsonCoalesce, hp]

/-- C7: a create request that omits `traceId` makes the store create the
observation with an inline-created trace under the project of the scope of
the caller, named from the request name (raw, so absent or null stays
unnamed), and on store success the handler answers 201 with the stored
record; the effect log shows exactly auth, parse, access check and the one
store create carrying that data. -/
theorem create_without_trace_makes_new_trace
    (env : Env) (scope : Scope) (body : Json) (p : CreatePayload)
    (o : StoredObservation)
    (hauth : env.auth = .valid scope)
    (hparse : parseCreate env.dt body = .ok p)
    (htrace : p.traceId = .undef)
    (hacc : env.access scope (createRefs p) = true)
    (hstore : env.create (createData scope p) = .ok o) :
    (createData scope p).trace = .create p.name scope.projectId ∧
    handler env "POST" body =
      (⟨201, .record o⟩,
       [.authCheck, .parseAttempt, .accessCheck (createRefs p),
        .storeCreate (createData scope p)]) := by
  constructor
  · simp [createData, htrace, strTruthy]
  · simp [handler, createBranch, hauth, hparse, hacc, hstore]

/-- C7 witness: the general theorem applied to a concrete create request
omitting `traceId`. -/
theorem create_without_trace_makes_new_trace_witness :
    (createData scopeFixture createPayloadNoTrace).trace =
      .create createPayloadNoTrace.name scopeFixture.projectId ∧
    handler envOk "POST" postBodyNoTrace =
      (⟨201, .record obsFixture⟩,
       [.authCheck, .parseAttempt,
        .accessCheck (createRefs createPayloadNoTrace),
        .storeCreate (createData scopeFixture createPayloadNoTrace)]) :=
  create_without_trace_makes_new_trace envOk scopeFixture postBodyNoTrace
    createPayloadNoTrace obsFixture rfl rfl rfl rfl rfl

/-- C8 counterexample: the claim says every request with an invalid
credential gets 401; a GET request with an invalid credential gets 405 from
the method guard, which precedes the credential check. -/
theorem invalid_credential_get_is_405 :
    (handler envNoAuth "GET" (.obj [])).1.status = 405 ∧
    (handler envNoAuth "GET" (.obj [])).1.status ≠ 401 :=
  ⟨rfl, by decide⟩

/-- C8 amended: every POST request with an invalid or missing credential is
answered 401 carrying the verification error, and the only collaborator
call made is the credential check itself — no payload validation, no access
check, no store call. -/
theorem invalid_credential_post_401_no_calls
    (env : Env) (body : Json) (err : String)
    (hauth : env.auth = .invalid err) :
    handler env "POST" body =
      (⟨401, .failure false err none⟩, [.authCheck]) := by
  simp [handler, hauth]

/-- C8 witness: the amended theorem applied to a concrete POST request with
an invalid credential. -/
theorem invalid_credential_post_401_no_calls_witness :
    handler envNoAuth "POST" patchBodyOk =
      (⟨401, .failure false "Invalid credentials" none⟩, [.authCheck]) :=
  invalid_credential_post_401_no_calls envNoAuth patchBodyOk
    "Invalid credentials" rfl

/-- C9: a create payload supplying `traceId` as the empty string is treated
as if `traceId` were omitted — the ref list handed to the access-scope
check contains no trace ref (only, possibly, the parent observation ref),
and the store data inline-creates a fresh trace under the project of the
caller instead of connecting to a trace with the empty id. -/
theorem empty_traceid_treated_as_omitted
    (dt : String → Bool) (body : Json) (p : CreatePayload) (scope : Scope)
    (_hparse : parseCreate dt body = .ok p)
    (htrace : p.traceId = .val "") :
    (∀ r ∈ createRefs p, r.type = .observation) ∧
    (createData scope p).trace = .create p.name scope.projectId := by
  constructor
  · intro r hr
    unfold createRefs at hr
    rw [htrace] at hr
    have h0 : strTruthy (Nullish.val "") = false := rfl
    rw [h0] at hr
    cases hp : strTruthy p.parentObservationId
    · rw [hp] at hr
      simp at hr
    · rw [hp] at hr
      simp at hr
      subst hr
      rfl
  · simp [createData, htrace, strTruthy]

/-- C9 witness: the theorem applied to a concrete body carrying
`traceId: ""`. -/
theorem empty_traceid_treated_as_omitted_witness :
    (∀ r ∈ createRefs createPayloadEmptyTrace, r.type = .observation) ∧
    (createData scopeFixture createPayloadEmptyTrace).trace =
      .create createPayloadEmptyTrace.name scopeFixture.projectId :=
  empty_traceid_treated_as_omitted dtIso postBodyEmptyTrace
    createPayloadEmptyTrace scopeFixture rfl rfl

/-- C10: for every raw body the patch schema accepts, the update data keys
are among the ten declared merge keys, and in particular `traceId`,
`startTime`, `parentObservationId` and `type` are never part of the update
— the schema strips keys it does not declare and the update object is built
only from declared fields. -/
theorem patch_never_updates_undeclared
    (dt : String → Bool) (body : Json) (p : PatchPayload)
    (_hparse : parsePatch dt body = .ok p) :
    updateKeys p ⊆ allowedUpdateKeys ∧
    "traceId" ∉ updateKeys p ∧
    "startTime" ∉ updateKeys p ∧
    "parentObservationId" ∉ updateKeys p ∧
    "type" ∉ updateKeys p := by
  have hsub : updateKeys p ⊆ allowedUpdateKeys := by
    intro k hk
    unfold updateKeys patchUpdateEntries restEntries at hk
    simp only [List.map_cons, List.map_append, List.mem_cons,
               List.mem_append] at hk
    rcases hk with h | h | h | h | h | h | h | h | h | h <;>
      first
        | (subst h; decide)
        | (have hk2 := mem_fentry_keys h; subst hk2; decide)
  refine ⟨hsub, ?_, ?_, ?_, ?_⟩ <;> intro h <;>
    exact absurd (hsub h) (by decide)

/-- C10 witness: the theorem applied to a raw body that does supply
`traceId`, `startTime`, `parentObservationId` and `type`; the schema strips
them, and the resulting update data never mentions them. -/
theorem patch_never_updates_undeclared_witness :
    updateKeys patchPayloadOk ⊆ allowedUpdateKeys ∧
    "traceId" ∉ updateKeys patchPayloadOk ∧
    "startTime" ∉ updateKeys patchPayloadOk ∧
    "parentObservationId" ∉ updateKeys patchPayloadOk ∧
    "type" ∉ updateKeys patchPayloadOk :=
  patch_never_updates_undeclared dtIso patchBodyExtraKeys patchPayloadOk rfl

end Generations
